import Mathlib

/-
  Verification of the `spirit` command-line controller for govee smart
  lights.  The repository holds two generations of the program:

  * a legacy implementation (`main.rs` together with `settings.rs` and
    `error.rs`) built on the clap `App` builder, and
  * a derive-based implementation (`cli.rs`, reusing `settings.rs`)
    built on clap derive macros.

  We shallowly embed the pure logic of both: hex-color parsing
  (a model of `colorsys::Rgb::from_hex_str` as the program uses it),
  the settings data model and the precedence chain
  (`DeviceSettingMap::pick_color` and friends in `settings.rs`),
  device filtering (`Cli::get_devices` in `cli.rs`), and the effect
  traces of the `toggle` and `check` subcommands (`Toggle::run`,
  `Check::run` in `cli.rs`; `check` in `main.rs`).  External HTTP
  calls are modelled as emitted actions; the subprocess of `check`
  is modelled by its exit code.
-/

/-- Model of `govee_rs::schema::Color { r, g, b : u32 }`.  The program
only ever stores channel values obtained from `colorsys` (0..=255). -/
structure Color where
  r : Nat
  g : Nat
  b : Nat
deriving DecidableEq, Repr

/-- Model of a govee `Device`; the program only reads the `name` field. -/
structure Device where
  name : String
deriving DecidableEq, Repr

/-- Model of `settings.rs::DeviceSetting`: per-device override record. -/
structure DeviceSetting where
  name : String
  color : Option String
  success : Option String
  fail : Option String
deriving DecidableEq, Repr

/-- Model of `settings.rs::Settings`: the global configuration. -/
structure Settings where
  default : Option String
  devices : Option (List DeviceSetting)
  success : Option String
  fail : Option String
deriving DecidableEq, Repr

/-- Model of `error.rs::SpiritError`, restricted to the variants the
embedded logic can produce: a plain message or a colorsys parse error. -/
inductive SpiritError where
  | error (msg : String)
  | parseError
deriving DecidableEq, Repr

deriving instance DecidableEq for Except

/-- Value of a hex digit character, `none` on a non-hex character. -/
def hexDigitVal (c : Char) : Option Nat :=
  if '0' ≤ c ∧ c ≤ '9' then some (c.toNat - '0'.toNat)
  else if 'a' ≤ c ∧ c ≤ 'f' then some (c.toNat - 'a'.toNat + 10)
  else if 'A' ≤ c ∧ c ≤ 'F' then some (c.toNat - 'A'.toNat + 10)
  else none

/-- Model of `colorsys::Rgb::from_hex_str` composed with the
`get_red()/get_green()/get_blue() as u32` conversion the program
performs everywhere: an optional leading `#` followed by exactly three
or six hex digits; three digits expand by doubling (`#abc` = `#aabbcc`).
Anything else is a parse error. -/
def rgbFromHexStr (s : String) : Except SpiritError Color :=
  let chars := if s.data.head? = some '#' then s.data.tail else s.data
  match chars.mapM hexDigitVal with
  | none => .error .parseError
  | some ds =>
    match ds with
    | [r, g, b] => .ok ⟨r * 16 + r, g * 16 + g, b * 16 + b⟩
    | [r1, r2, g1, g2, b1, b2] =>
        .ok ⟨r1 * 16 + r2, g1 * 16 + g2, b1 * 16 + b2⟩
    | _ => .error .parseError

/-- Model of `settings.rs::DeviceSettingMap`, the `HashMap<String,
DeviceSetting>` keyed by device name, as its lookup function. -/
def DeviceSettingMap : Type := String → Option DeviceSetting

/-- Model of `Settings::device_settings`: insert every entry of the
`devices` list in order into a name-keyed map (`HashMap::insert`
overwrites, so a later entry replaces an earlier one with the same name). -/
def Settings.device_settings (s : Settings) : DeviceSettingMap :=
  (s.devices.getD []).foldl
    (fun m st => fun n => if n = st.name then some st else m n)
    (fun _ => none)

/-- Model of `DeviceSettingMap::get`: plain `HashMap` lookup. -/
def DeviceSettingMap.get (m : DeviceSettingMap) (name : String) :
    Option DeviceSetting :=
  m name

/-- Model of `DeviceSettingMap::pick_color` in `settings.rs`: choose the
first present candidate string in the order force, device, default, and
parse it; no candidate at all yields `Ok(None)`. -/
def DeviceSettingMap.pick_color (_m : DeviceSettingMap)
    (force : Option String) (device : Option String)
    (default : Option String) : Except SpiritError (Option Color) :=
  let color : Option String :=
    match force with
    | some color_str => some color_str
    | none =>
      match device with
      | some device_color => some device_color
      | none =>
        match default with
        | some d => some d
        | none => none
  match color with
  | some color_str =>
    match rgbFromHexStr color_str with
    | .ok parsed => .ok (some parsed)
    | .error e => .error e
  | none => .ok none

/-- Model of `DeviceSettingMap::default_color`: the device candidate is
the looked-up setting's `color` string. -/
def DeviceSettingMap.default_color (m : DeviceSettingMap) (name : String)
    (force : Option String) (default : Option String) :
    Except SpiritError (Option Color) :=
  m.pick_color force ((m.get name).bind (fun s => s.color)) default

/-- Model of `DeviceSettingMap::success_color`: no force candidate; the
device candidate is the setting's `success` string; the caller-supplied
string is the `default` (lowest-precedence) candidate. -/
def DeviceSettingMap.success_color (m : DeviceSettingMap) (name : String)
    (default : Option String) : Except SpiritError (Option Color) :=
  m.pick_color none ((m.get name).bind (fun s => s.success)) default

/-- Model of `DeviceSettingMap::fail_color`: like `success_color` with
the setting's `fail` string. -/
def DeviceSettingMap.fail_color (m : DeviceSettingMap) (name : String)
    (default : Option String) : Except SpiritError (Option Color) :=
  m.pick_color none ((m.get name).bind (fun s => s.fail)) default

/-- Model of `settings.rs::DeviceSetting::color`: parse the `color`
string when present. -/
def DeviceSetting.colorParsed (s : DeviceSetting) :
    Except SpiritError (Option Color) :=
  match s.color with
  | some color_str =>
    match rgbFromHexStr color_str with
    | .ok parsed => .ok (some parsed)
    | .error e => .error e
  | none => .ok none

/-- Model of `main.rs::get_color` (legacy toggle path): the looked-up
device setting's color is parsed eagerly (a parse failure there aborts);
then an explicit `--color` value wins, else the already-parsed device color is
returned, else the global `default` string is parsed, else no color. -/
def get_color (device : Device) (matchesColor : Option String)
    (settings : Option Settings) (device_settings : DeviceSettingMap) :
    Except SpiritError (Option Color) :=
  match
    (match device_settings.get device.name with
     | some setting => setting.colorParsed
     | none => .ok none) with
  | .error e => .error e
  | .ok device_color =>
    match matchesColor, device_color with
    | some color_str, _ => (rgbFromHexStr color_str).map some
    | none, some dc => .ok (some dc)
    | none, none =>
      match settings.bind (fun s => s.default) with
      | some d => (rgbFromHexStr d).map some
      | none => .ok none

/-- Model of `Cli::get_devices` in `cli.rs` after the device list has
been fetched: `--all` short-circuits; else a non-empty `--device` list
filters by exact name membership; else the settings-derived map filters
by key membership; both filtering branches reject an empty result. -/
def get_devices (all : Bool) (deviceArgs : List String)
    (settings : Settings) (fetched : List Device) :
    Except SpiritError (List Device) :=
  if !all then
    if !deviceArgs.isEmpty then
      let filtered := fetched.filter (fun d => deviceArgs.contains d.name)
      if filtered.isEmpty then .error (.error "No devices matched")
      else .ok filtered
    else
      let device_names := settings.device_settings
      let filtered := fetched.filter
        (fun d => (device_names.get d.name).isSome)
      if filtered.isEmpty then .error (.error "No devices matched")
      else .ok filtered
  else .ok fetched

/-- The exact-name filter of the `--device` branch of `get_devices`. -/
def filterByNames (names : List String) (devices : List Device) :
    List Device :=
  devices.filter (fun d => names.contains d.name)

/-- The settings-membership filter of the configuration branch of
`get_devices`. -/
def filterBySettings (m : DeviceSettingMap) (devices : List Device) :
    List Device :=
  devices.filter (fun d => (m.get d.name).isSome)

/-- Power states of `govee_rs::PowerState`. -/
inductive PowerState where
  | on
  | off
deriving DecidableEq, Repr

/-- One call emitted to the external govee client: a color-set call
(`client.color` resp. `client.set_color`) or a power call
(`client.turn` resp. `client.toggle`). -/
inductive ClientCall where
  | setColor (d : Device) (c : Color)
  | turn (d : Device) (p : PowerState)
deriving DecidableEq, Repr

/-- Result of a per-device loop: it ran to completion emitting
`actions`; or it aborted with error `e` after emitting `applied`; or it
panicked (unwrap of `None`) after emitting `applied`. -/
inductive RunResult where
  | completed (actions : List ClientCall)
  | failed (applied : List ClientCall) (e : SpiritError)
  | panicked (applied : List ClientCall)
deriving DecidableEq, Repr

/-- Prepend an already-emitted action to a loop result. -/
def RunResult.prepend (a : ClientCall) : RunResult → RunResult
  | .completed acts => .completed (a :: acts)
  | .failed acts e => .failed (a :: acts) e
  | .panicked acts => .panicked (a :: acts)

/-- Prepend a list of already-emitted actions to a loop result. -/
def RunResult.prependAll (pre : List ClientCall) : RunResult → RunResult
  | .completed acts => .completed (pre ++ acts)
  | .failed acts e => .failed (pre ++ acts) e
  | .panicked acts => .panicked (pre ++ acts)

/-- The per-device loop of `Toggle::run` in `cli.rs` (non-off branch):
resolve the device's color via `default_color`; a resolved color emits a
color-set call, no color emits a power-on call, and a resolution error
aborts the remaining iterations. -/
def toggleLoop (m : DeviceSettingMap) (force default : Option String) :
    List Device → RunResult
  | [] => .completed []
  | d :: rest =>
    match m.default_color d.name force default with
    | .error e => .failed [] e
    | .ok (some c) =>
        (toggleLoop m force default rest).prepend (.setColor d c)
    | .ok none =>
        (toggleLoop m force default rest).prepend (.turn d .on)

/-- Model of `Toggle::run` in `cli.rs`: with `--off` every device is
turned off and any color is ignored; otherwise the per-device loop runs
with the `--color` value as force and the global `default` string. -/
def toggleRun (m : DeviceSettingMap) (off : Bool)
    (force default : Option String) (devices : List Device) : RunResult :=
  if off then .completed (devices.map (fun d => .turn d .off))
  else toggleLoop m force default devices

/-- Outcome of a whole `check` invocation whose subprocess ran to
completion with some exit code: the process re-exits with a code after
emitting color-set calls, or aborts with an error, or panics. -/
inductive CheckOutcome where
  | exited (code : Int) (actions : List ClientCall)
  | errored (applied : List ClientCall) (e : SpiritError)
  | panicked (applied : List ClientCall)
deriving DecidableEq, Repr

/-- The per-device loop of `Check::run` in `cli.rs`: on subprocess
success resolve `success_color` (with the success flag string as the
fallback), otherwise `fail_color`; the resolved option is `.unwrap()`ed,
so a `none` resolution panics; a parse error aborts. -/
def checkLoop (m : DeviceSettingMap) (successFlag failFlag : Option String)
    (isSuccess : Bool) : List Device → RunResult
  | [] => .completed []
  | d :: rest =>
    match
      (if isSuccess then m.success_color d.name successFlag
       else m.fail_color d.name failFlag) with
    | .error e => .failed [] e
    | .ok none => .panicked []
    | .ok (some c) =>
        (checkLoop m successFlag failFlag isSuccess rest).prepend
          (.setColor d c)

/-- Model of `Check::run` in `cli.rs`, given the exit code of the
completed subprocess: run the per-device loop with `res.success()`
(exit code 0), then `std::process::exit` with the subprocess's code.
Note the global `Settings` success and fail strings are not inputs:
`Check::run` never reads them. -/
def checkRun (m : DeviceSettingMap) (successFlag failFlag : Option String)
    (devices : List Device) (exitCode : Int) : CheckOutcome :=
  match checkLoop m successFlag failFlag (exitCode == 0) devices with
  | .completed acts => .exited exitCode acts
  | .failed acts e => .errored acts e
  | .panicked acts => .panicked acts

/-- Model of legacy `main.rs::check`, given the exit code of the
completed subprocess: the success and fail strings (always present,
clap supplies flag, env or default value) are parsed up front, the
single chosen color is applied to every device, and the process
re-exits with the subprocess's exit code. -/
def legacy_check (successStr failStr : String) (devices : List Device)
    (exitCode : Int) : CheckOutcome :=
  match rgbFromHexStr successStr with
  | .error e => .errored [] e
  | .ok success =>
    match rgbFromHexStr failStr with
    | .error e => .errored [] e
    | .ok fail =>
      let color := if exitCode == 0 then success else fail
      .exited exitCode (devices.map (fun d => .setColor d color))

/-- Model of the config-crate merge used by `Settings::new`: the local
file's top-level keys override the global file's; the `devices` array
is one key and is replaced wholesale. -/
def mergeSettings (g l : Settings) : Settings :=
  ⟨l.default.orElse (fun _ => g.default),
   l.devices.orElse (fun _ => g.devices),
   l.success.orElse (fun _ => g.success),
   l.fail.orElse (fun _ => g.fail)⟩

/-- Model of `Settings::new` in `settings.rs` over the filesystem
state, each present `spirit.toml` abstracted as its parsed `Settings`
value: no file present means nothing was loaded and the result is
`Ok(None)` — not an error. -/
def Settings.new (globalFile localFile : Option Settings) :
    Except SpiritError (Option Settings) :=
  match globalFile, localFile with
  | none, none => .ok none
  | some g, none => .ok (some g)
  | none, some l => .ok (some l)
  | some g, some l => .ok (some (mergeSettings g l))

/-- Model of the settings-loading stage of `Cli::run` in `cli.rs`:
`Settings::new()` followed by `ok_or_else`, which turns the no-settings
value `None` into an error. -/
def cliRunSettings (globalFile localFile : Option Settings) :
    Except SpiritError Settings :=
  match Settings.new globalFile localFile with
  | .error e => .error e
  | .ok none =>
      .error (.error "spirit.toml evaluated to an empty settings object")
  | .ok (some s) => .ok s

/-- Model of the settings-loading stage of legacy `main.rs::main`: the
`Ok` value, `None` included, is used as-is; only an `Err` exits. -/
def legacy_mainSettings (globalFile localFile : Option Settings) :
    Except SpiritError (Option Settings) :=
  Settings.new globalFile localFile

/-- A sample per-device setting used to instantiate the theorems. -/
def demoSetting : DeviceSetting :=
  ⟨"lamp", some "#445566", some "#445566", some "#445566"⟩

/-- A sample global configuration: default "#778899", one device
setting for "lamp". -/
def demoSettings : Settings :=
  ⟨some "#778899", some [demoSetting], none, none⟩

/-- The settings-derived device map of `demoSettings`. -/
def demoMap : DeviceSettingMap := demoSettings.device_settings

/-- A device present in `demoSettings`. -/
def lampDevice : Device := ⟨"lamp"⟩

/-- A device absent from `demoSettings`. -/
def otherDevice : Device := ⟨"desk"⟩

/-- A configuration holding two device settings with the same name, to
exercise the last-wins behavior of `device_settings`. -/
def dupSettings : Settings :=
  ⟨none,
   some [⟨"lamp", some "#111111", none, none⟩,
         ⟨"lamp", some "#222222", none, none⟩],
   none, none⟩

-- ### Theorems

/-- C2: color resolution (`pick_color` in `settings.rs`, and
`get_color` on the legacy path) is strictly ordered: with explicit
"#112233", per-device override "#445566" and global default "#778899"
all present the result is the parse of "#112233"; dropping explicit
yields the override's parse; dropping both yields the default's parse;
dropping all yields none. -/
theorem pick_color_strictly_ordered :
    demoMap.pick_color (some "#112233") (some "#445566") (some "#778899")
      = .ok (some ⟨0x11, 0x22, 0x33⟩)
    ∧ demoMap.pick_color none (some "#445566") (some "#778899")
      = .ok (some ⟨0x44, 0x55, 0x66⟩)
    ∧ demoMap.pick_color none none (some "#778899")
      = .ok (some ⟨0x77, 0x88, 0x99⟩)
    ∧ demoMap.pick_color none none none = .ok none
    ∧ get_color lampDevice (some "#112233") (some demoSettings) demoMap
      = .ok (some ⟨0x11, 0x22, 0x33⟩)
    ∧ get_color lampDevice none (some demoSettings) demoMap
      = .ok (some ⟨0x44, 0x55, 0x66⟩)
    ∧ get_color otherDevice none (some demoSettings) demoMap
      = .ok (some ⟨0x77, 0x88, 0x99⟩)
    ∧ get_color otherDevice none none demoMap = .ok none := by
  refine ⟨?_, ?_, ?_, ?_, ?_, ?_, ?_, ?_⟩ <;> rfl

/-- Lookup after folding a list of settings into a map by repeated
insert: the last inserted entry with the looked-up name wins, falling
back to the starting map. -/
theorem foldl_insert_lookup (l : List DeviceSetting)
    (m : String → Option DeviceSetting) (name : String) :
    (l.foldl (fun m st => fun n => if n = st.name then some st else m n) m)
        name
      = (l.reverse.find? (fun st => st.name == name)).or (m name) := by
  induction l generalizing m with
  | nil => rfl
  | cons a l ih =>
    simp only [List.foldl_cons, List.reverse_cons]
    rw [ih, List.find?_append]
    cases h : l.reverse.find? (fun st => st.name == name) with
    | some st => rfl
    | none =>
      show (if name = a.name then some a else m name)
          = (List.find? (fun st => st.name == name) [a]).or (m name)
      by_cases hn : name = a.name
      · subst hn
        simp [List.find?]
      · have hb : (a.name == name) = false := by
          simp only [beq_eq_false_iff_ne, ne_eq]
          exact fun h' => hn h'.symm
        simp [List.find?, hb, hn]

/-- C9: the settings-derived device map (`Settings::device_settings`
feeding `DeviceSettingMap::get`) is a case-sensitive exact-name lookup,
and with several `DeviceSetting` entries for one name the last entry in
list order wins. -/
theorem device_settings_last_wins_exact (s : Settings) (name : String) :
    s.device_settings.get name
      = (s.devices.getD []).reverse.find? (fun st => st.name == name)
    ∧ (∀ st, s.device_settings.get name = some st → st.name = name) := by
  have h : s.device_settings.get name
      = ((s.devices.getD []).reverse.find?
          (fun st => st.name == name)).or none :=
    foldl_insert_lookup (s.devices.getD []) (fun _ => none) name
  have h' : s.device_settings.get name
      = (s.devices.getD []).reverse.find? (fun st => st.name == name) := by
    rw [h, Option.or_none]
  refine ⟨h', ?_⟩
  intro st hst
  rw [h'] at hst
  have := List.find?_some hst
  exact eq_of_beq this

/-- C9 witness: in a configuration with two entries named "lamp" the
map holds the second (last) one, and the lookup is exact. -/
theorem device_settings_last_wins_exact_witness :
    dupSettings.device_settings.get "lamp"
      = some ⟨"lamp", some "#222222", none, none⟩ := by
  have h := (device_settings_last_wins_exact dupSettings "lamp").1
  rw [h]
  rfl

/-- C7: device filtering is idempotent: re-applying either the
explicit-name filter or the settings-membership filter of
`Cli::get_devices` to an already-filtered list changes nothing. -/
theorem device_filter_idempotent (names : List String)
    (m : DeviceSettingMap) (devices : List Device) :
    filterByNames names (filterByNames names devices)
      = filterByNames names devices
    ∧ filterBySettings m (filterBySettings m devices)
      = filterBySettings m devices := by
  constructor <;>
    simp [filterByNames, filterBySettings, List.filter_filter]

/-- C3: the device-selection policy of `Cli::get_devices`: `--all`
short-circuits to the fetched list; else explicit names filter by exact
membership; else the settings-derived map filters by key membership;
and both filtering branches turn an empty result into the error
"No devices matched" rather than an empty success. -/
theorem get_devices_policy (all : Bool) (args : List String)
    (settings : Settings) (fetched : List Device) :
    (all = true → get_devices all args settings fetched = .ok fetched)
    ∧ (all = false → args ≠ [] →
        get_devices all args settings fetched
          = if (filterByNames args fetched).isEmpty
            then .error (.error "No devices matched")
            else .ok (filterByNames args fetched))
    ∧ (all = false → args = [] →
        get_devices all args settings fetched
          = if (filterBySettings settings.device_settings fetched).isEmpty
            then .error (.error "No devices matched")
            else .ok (filterBySettings settings.device_settings fetched)) := by
  refine ⟨?_, ?_, ?_⟩
  · rintro rfl
    rfl
  · rintro rfl hargs
    have he : args.isEmpty = false := by
      cases args with
      | nil => exact absurd rfl hargs
      | cons a l => rfl
    simp [get_devices, he, filterByNames]
  · rintro rfl rfl
    simp [get_devices, filterBySettings]

/-- C3 witness: with `--all` unset, one explicit name "a" and fetched
devices "a" and "b", selection returns exactly the device named "a". -/
theorem get_devices_policy_witness :
    get_devices false ["a"] demoSettings [⟨"a"⟩, ⟨"b"⟩] = .ok [⟨"a"⟩]
    ∧ get_devices false ["z"] demoSettings [⟨"a"⟩, ⟨"b"⟩]
      = .error (.error "No devices matched") := by
  constructor
  · have h := (get_devices_policy false ["a"] demoSettings
      [⟨"a"⟩, ⟨"b"⟩]).2.1 rfl (by decide)
    simpa using h
  · have h := (get_devices_policy false ["z"] demoSettings
      [⟨"a"⟩, ⟨"b"⟩]).2.1 rfl (by decide)
    simpa using h

/-- C4 counterexample: with no settings file present (neither global
nor local), the settings-loading stage of the derive-based `Cli::run`
fails with an error instead of continuing, refuting "the run continues
rather than failing" on that path. -/
theorem cli_run_settings_absent_cex :
    cliRunSettings none none
      = .error (.error "spirit.toml evaluated to an empty settings object") :=
  rfl

/-- C4 amended: with no settings file present, `Settings::new` itself
returns the no-settings value `Ok(None)` (not an error) and the legacy
`main.rs` run continues with it; but the derive-based `Cli::run` turns
the no-settings value into the error "spirit.toml evaluated to an empty
settings object" and fails. -/
theorem settings_absent_behavior :
    Settings.new none none = .ok none
    ∧ legacy_mainSettings none none = .ok none
    ∧ cliRunSettings none none
      = .error (.error "spirit.toml evaluated to an empty settings object")
    := ⟨rfl, rfl, rfl⟩

/-- C6: whichever precedence level `pick_color` selects (force, then
per-device, then default), an invalid hex string at that level is a
parse error, never a silent fallback to a lower level or to no color;
likewise for the legacy `get_color`. -/
theorem color_parse_never_falls_through (m : DeviceSettingMap)
    (dev : Device) (settings : Option Settings)
    (device default : Option String) (s : String) (e : SpiritError)
    (hbad : rgbFromHexStr s = .error e) :
    m.pick_color (some s) device default = .error e
    ∧ m.pick_color none (some s) default = .error e
    ∧ m.pick_color none none (some s) = .error e
    ∧ (∃ e2, get_color dev (some s) settings m = .error e2)
    ∧ (((m.get dev.name).bind (fun st => st.color)) = none →
        settings.bind (fun st => st.default) = some s →
        get_color dev none settings m = .error e) := by
  refine ⟨?_, ?_, ?_, ?_, ?_⟩
  · simp [DeviceSettingMap.pick_color, hbad]
  · simp [DeviceSettingMap.pick_color, hbad]
  · simp [DeviceSettingMap.pick_color, hbad]
  · unfold get_color
    cases hm : m.get dev.name with
    | none => exact ⟨e, by simp [hbad, Except.map]⟩
    | some st =>
      cases hc : st.colorParsed with
      | error e2 => exact ⟨e2, by simp [hc]⟩
      | ok dc => exact ⟨e, by simp [hc, hbad, Except.map]⟩
  · intro hnone hdef
    unfold get_color
    cases hm : m.get dev.name with
    | none => simp [hdef, hbad, Except.map]
    | some st =>
      have hcol : st.color = none := by
        rw [hm] at hnone
        simpa using hnone
      simp [DeviceSetting.colorParsed, hcol, hdef, hbad, Except.map]

/-- C6 witness: the invalid string "notacolor" at the selected force
level is a parse error even though valid candidates sit below it. -/
theorem color_parse_never_falls_through_witness :
    demoMap.pick_color (some "notacolor") (some "#445566") (some "#778899")
      = .error .parseError := by
  exact (color_parse_never_falls_through demoMap lampDevice
    (some demoSettings) (some "#445566") (some "#778899") "notacolor"
    .parseError rfl).1

/-- C1 counterexample: in the derive-based `check`, with the success
flag "#112233" present and a per-device success setting "#445566" for
device "lamp", the resolved color is the parse of the per-device string,
not the parse of the flag — the flag does not win over the per-device
setting. -/
theorem success_color_flag_not_dominant_cex :
    demoMap.success_color "lamp" (some "#112233")
      = .ok (some ⟨0x44, 0x55, 0x66⟩)
    ∧ demoMap.success_color "lamp" (some "#112233")
      ≠ .ok (some ⟨0x11, 0x22, 0x33⟩) := by
  constructor
  · rfl
  · decide

/-- C1 amended: in the derive-based `check` the success (resp. fail)
string precedence is per-device setting first, then the flag value
(`success_color` and `fail_color` pass the flag as the lowest-priority
`default` candidate of `pick_color`, with no force candidate); the
global config success and fail values are not consulted on this path
(`checkRun` does not read them). -/
theorem success_fail_color_precedence (m : DeviceSettingMap)
    (name devStr flagStr : String) (flag : Option String) :
    (((m.get name).bind (fun st => st.success)) = some devStr →
      m.success_color name flag = (rgbFromHexStr devStr).map some)
    ∧ (((m.get name).bind (fun st => st.success)) = none →
        flag = some flagStr →
        m.success_color name flag = (rgbFromHexStr flagStr).map some)
    ∧ (((m.get name).bind (fun st => st.fail)) = some devStr →
        m.fail_color name flag = (rgbFromHexStr devStr).map some)
    ∧ (((m.get name).bind (fun st => st.fail)) = none →
        flag = some flagStr →
        m.fail_color name flag = (rgbFromHexStr flagStr).map some) := by
  refine ⟨?_, ?_, ?_, ?_⟩
  · intro h
    cases hr : rgbFromHexStr devStr <;>
      simp [DeviceSettingMap.success_color, DeviceSettingMap.pick_color,
        h, hr, Except.map]
  · intro h hf
    cases hr : rgbFromHexStr flagStr <;>
      simp [DeviceSettingMap.success_color, DeviceSettingMap.pick_color,
        h, hf, hr, Except.map]
  · intro h
    cases hr : rgbFromHexStr devStr <;>
      simp [DeviceSettingMap.fail_color, DeviceSettingMap.pick_color,
        h, hr, Except.map]
  · intro h hf
    cases hr : rgbFromHexStr flagStr <;>
      simp [DeviceSettingMap.fail_color, DeviceSettingMap.pick_color,
        h, hf, hr, Except.map]

/-- C1 amended witness: for "lamp" (per-device success "#445566") the
flag "#112233" loses; for "desk" (no per-device setting) the flag is
used. -/
theorem success_fail_color_precedence_witness :
    demoMap.success_color "lamp" (some "#112233")
      = (rgbFromHexStr "#445566").map some
    ∧ demoMap.success_color "desk" (some "#112233")
      = (rgbFromHexStr "#112233").map some := by
  constructor
  · exact (success_fail_color_precedence demoMap "lamp" "#445566"
      "#112233" (some "#112233")).1 (by decide)
  · exact (success_fail_color_precedence demoMap "desk" "#445566"
      "#112233" (some "#112233")).2.1 (by decide) rfl

/-- Prepending one action commutes with prepending a list of actions. -/
theorem RunResult.prepend_prependAll (a : ClientCall)
    (pre : List ClientCall) (r : RunResult) :
    (r.prependAll pre).prepend a = r.prependAll (a :: pre) := by
  cases r <;> rfl

/-- Prepending no actions changes nothing. -/
theorem RunResult.prependAll_nil (r : RunResult) :
    r.prependAll [] = r := by
  cases r <;> rfl

/-- Running the `check` loop over a prefix whose devices all resolve to
a color emits those color-set calls and continues with the rest. -/
theorem checkLoop_append (m : DeviceSettingMap) (sf ff : Option String)
    (isS : Bool) (colorFor : Device → Color) (pre l : List Device)
    (h : ∀ d ∈ pre,
      (if isS then m.success_color d.name sf else m.fail_color d.name ff)
        = .ok (some (colorFor d))) :
    checkLoop m sf ff isS (pre ++ l)
      = (checkLoop m sf ff isS l).prependAll
          (pre.map (fun d => .setColor d (colorFor d))) := by
  induction pre with
  | nil =>
    rw [List.nil_append, List.map_nil, RunResult.prependAll_nil]
  | cons d pre ih =>
    have hd := h d (List.mem_cons_self _ _)
    have hrest : ∀ x ∈ pre,
        (if isS then m.success_color x.name sf
         else m.fail_color x.name ff) = .ok (some (colorFor x)) :=
      fun x hx => h x (List.mem_cons_of_mem _ hx)
    rw [List.cons_append]
    show (match
        (if isS then m.success_color d.name sf
         else m.fail_color d.name ff) with
      | .error e => RunResult.failed [] e
      | .ok none => RunResult.panicked []
      | .ok (some c) =>
          (checkLoop m sf ff isS (pre ++ l)).prepend (.setColor d c)) = _
    rw [hd, ih hrest, List.map_cons]
    exact RunResult.prepend_prependAll _ _ _

/-- C5: for every device list and `check` invocation whose subprocess
ran to completion and for which a success (resp. fail) color resolves
for every device, a zero exit code applies each device's resolved
success color, a non-zero exit code each device's resolved fail color,
and the process re-exits with exactly the subprocess's exit code. -/
theorem check_run_applies_colors (m : DeviceSettingMap)
    (sf ff : Option String) (sStr fStr : String) (devices : List Device)
    (code : Int) (colorFor : Device → Color) (sc fc : Color)
    (h : ∀ d ∈ devices,
      (if code == 0 then m.success_color d.name sf
       else m.fail_color d.name ff) = .ok (some (colorFor d)))
    (hs : rgbFromHexStr sStr = .ok sc)
    (hf : rgbFromHexStr fStr = .ok fc) :
    checkRun m sf ff devices code
      = .exited code
          (devices.map (fun d => .setColor d (colorFor d)))
    ∧ legacy_check sStr fStr devices code
      = .exited code
          (devices.map (fun d =>
            .setColor d (if code == 0 then sc else fc))) := by
  constructor
  · unfold checkRun
    rw [show devices = devices ++ [] from (List.append_nil devices).symm,
      checkLoop_append m sf ff (code == 0) colorFor devices [] h]
    simp [checkLoop, RunResult.prependAll]
  · simp [legacy_check, hs, hf]

/-- C5 witness: success flag "#112233", exit code 0, one device with no
per-device setting: the parsed flag color is applied and the process
exits 0. -/
theorem check_run_applies_colors_witness :
    checkRun demoMap (some "#112233") none [otherDevice] 0
      = .exited 0 [.setColor otherDevice ⟨0x11, 0x22, 0x33⟩]
    ∧ legacy_check "#00ff00" "#ff0000" [otherDevice] 0
      = .exited 0 [.setColor otherDevice ⟨0, 0xff, 0⟩] := by
  have h := check_run_applies_colors demoMap (some "#112233") none
    "#00ff00" "#ff0000" [otherDevice] 0 (fun _ => ⟨0x11, 0x22, 0x33⟩)
    ⟨0, 0xff, 0⟩ ⟨0xff, 0, 0⟩ (by decide) rfl rfl
  exact ⟨by simpa using h.1, by simpa using h.2⟩

/-- C10: in the derive-based `check` the resolved color option is
unwrapped unconditionally; when the flag is absent and the device has no
per-device success setting (the global config success value is not an
input of this path at all), the run panics on unwrap of `None` — it does
not return a surfaced error. -/
theorem check_run_panics_on_missing_color (m : DeviceSettingMap)
    (ff : Option String) (pre rest : List Device) (d : Device)
    (colorFor : Device → Color)
    (hdev : ((m.get d.name).bind (fun st => st.success)) = none)
    (hpre : ∀ x ∈ pre,
      m.success_color x.name none = .ok (some (colorFor x))) :
    checkRun m none ff (pre ++ d :: rest) 0
      = .panicked (pre.map (fun x => .setColor x (colorFor x)))
    ∧ ∀ applied e,
        checkRun m none ff (pre ++ d :: rest) 0 ≠ .errored applied e := by
  have hloop : checkLoop m none ff ((0 : Int) == 0) (pre ++ d :: rest)
      = RunResult.panicked (pre.map (fun x => .setColor x (colorFor x))) := by
    rw [checkLoop_append m none ff ((0 : Int) == 0) colorFor pre
      (d :: rest) (by simpa using hpre)]
    show (match
        (if ((0 : Int) == 0) then m.success_color d.name none
         else m.fail_color d.name ff) with
      | .error e => RunResult.failed [] e
      | .ok none => RunResult.panicked []
      | .ok (some c) =>
          (checkLoop m none ff ((0 : Int) == 0) rest).prepend
            (.setColor d c)).prependAll _ = _
    have hres : m.success_color d.name none = .ok none := by
      simp [DeviceSettingMap.success_color, DeviceSettingMap.pick_color,
        hdev]
    simp [hres, RunResult.prependAll]
  constructor
  · unfold checkRun
    rw [hloop]
  · intro applied e
    unfold checkRun
    rw [hloop]
    intro hcontra
    exact absurd hcontra (by simp)

/-- C10 witness: no flag, a device absent from the settings map, exit
code 0: `check` panics immediately. -/
theorem check_run_panics_witness :
    checkRun demoMap none none [otherDevice] 0 = .panicked [] := by
  have h := (check_run_panics_on_missing_color demoMap none [] []
    otherDevice (fun _ => ⟨0, 0, 0⟩) (by decide) (by simp)).1
  simpa using h

/-- Running the toggle loop when every device's color resolution
succeeds emits, per device, a color-set call when a color resolved and
a power-on call otherwise. -/
theorem toggleLoop_resolved (m : DeviceSettingMap)
    (force default : Option String) (resolveFor : Device → Option Color)
    (l : List Device)
    (h : ∀ d ∈ l,
      m.default_color d.name force default = .ok (resolveFor d)) :
    toggleLoop m force default l
      = .completed (l.map (fun d =>
          match resolveFor d with
          | some c => ClientCall.setColor d c
          | none => ClientCall.turn d .on)) := by
  induction l with
  | nil => rfl
  | cons d l ih =>
    have hd := h d (List.mem_cons_self _ _)
    have hrest : ∀ x ∈ l,
        m.default_color x.name force default = .ok (resolveFor x) :=
      fun x hx => h x (List.mem_cons_of_mem _ hx)
    show (match m.default_color d.name force default with
      | .error e => RunResult.failed [] e
      | .ok (some c) =>
          (toggleLoop m force default l).prepend (.setColor d c)
      | .ok none =>
          (toggleLoop m force default l).prepend (.turn d .on)) = _
    rw [hd, ih hrest, List.map_cons]
    cases resolveFor d <;> rfl

/-- C8: `Toggle::run` with `--off` emits exactly one power-off call per
device and no color-set call, whatever colors are configured or
resolvable; without `--off`, each device whose color resolves gets one
color-set call and each device without a resolved color gets one
power-on call. -/
theorem toggle_run_spec (m : DeviceSettingMap)
    (force default : Option String) (devices : List Device)
    (resolveFor : Device → Option Color) :
    toggleRun m true force default devices
      = .completed (devices.map (fun d => .turn d .off))
    ∧ ((∀ d ∈ devices,
          m.default_color d.name force default = .ok (resolveFor d)) →
        toggleRun m false force default devices
          = .completed (devices.map (fun d =>
              match resolveFor d with
              | some c => ClientCall.setColor d c
              | none => ClientCall.turn d .on))) := by
  constructor
  · rfl
  · intro h
    exact toggleLoop_resolved m force default resolveFor devices h

/-- C8 witness: `--off` turns both devices off ignoring the configured
colors; without `--off`, "lamp" (configured "#445566") gets a color-set
call and "desk" (nothing configured, no default) gets power-on. -/
theorem toggle_run_spec_witness :
    toggleRun demoMap true none none [lampDevice, otherDevice]
      = .completed [.turn lampDevice .off, .turn otherDevice .off]
    ∧ toggleRun demoMap false none none [lampDevice, otherDevice]
      = .completed [.setColor lampDevice ⟨0x44, 0x55, 0x66⟩,
          .turn otherDevice .on] := by
  constructor
  · exact (toggle_run_spec demoMap none none [lampDevice, otherDevice]
      (fun _ => none)).1
  · have h := (toggle_run_spec demoMap none none [lampDevice, otherDevice]
      (fun d => if d.name = "lamp"
        then some ⟨0x44, 0x55, 0x66⟩ else none)).2 (by decide)
    simpa using h
